import Mathlib

/-
Verification of the newsletter-backend server against its specification.

The repository ships several server variants:
* `server.js` (first document): dual email provider (Gmail/Resend), flat-file
  JSON storage;
* `unnamed/part_000`: Resend-only provider, flat-file JSON storage;
* `unnamed/part_001`: dual provider and dual storage (MongoDB or JSON files)
  behind unified helpers (`getStats`, `saveStats`, `findEmail`, `createEmail`,
  `getAllEmails`, `countEmails`, `deleteEmail`).

The embedding below follows those sources.  Timestamps and calendar dates are
modelled as naturals (order-isomorphic to the ISO strings / `Date` values the
source stores); JS numbers used as counters are modelled as `Nat` where the
source only increments them and as `Int` where the source decrements them
unguarded; a JS object used as a map is modelled as an insertion-ordered
association list, matching `Object.entries` enumeration order.
-/

set_option maxRecDepth 100000

namespace Newsletter

/-- A subscriber record, as pushed by `POST /api/subscribe`:
`{ email, subscribedAt: new Date().toISOString(), verified: false }`. -/
structure Subscriber where
  email : String
  subscribedAt : Nat
  verified : Bool
  deriving DecidableEq, Repr

/-- The stats singleton `statsDB`:
`{ totalClicks, emailsByDay, totalEmails, lastUpdated }`.
`totalEmails` is an `Int` because `statsDB.totalEmails--` in `server.js` is an
unguarded JS decrement; `totalClicks` is only ever incremented.  `lastUpdated`
is never read by any handler and is omitted. -/
structure Stats where
  totalClicks : Nat
  emailsByDay : List (Nat × Nat)
  totalEmails : Int
  deriving DecidableEq, Repr

/-- The in-memory database pair `emailsDB` / `statsDB`. -/
structure ServerState where
  emailsDB : List Subscriber
  statsDB : Stats
  deriving DecidableEq, Repr

/-- The in-memory state together with the persisted copy
(`data/emails.json` + `data/stats.json`); `saveData` / `saveDataToJSON`
rewrite both files from memory, i.e. set `disk := mem`. -/
structure FullState where
  mem : ServerState
  disk : ServerState
  deriving DecidableEq, Repr

/-- The guard of `POST /api/subscribe`:
`if (!email || !email.includes('@')) return res.status(400)...`
(`includes` of a single character is modelled over the character list). -/
def invalidEmail (e : String) : Bool :=
  e == "" || !(e.data.any (fun c => c == '@'))

/-- `statsDB.emailsByDay[today] = (statsDB.emailsByDay[today] || 0) + 1`:
JS objects update an existing key in place (keeping its position) and append a
fresh key at the end. -/
def dayIncr (m : List (Nat × Nat)) (today : Nat) : List (Nat × Nat) :=
  if m.any (fun p => p.1 == today) then
    m.map (fun p => if p.1 == today then (p.1, p.2 + 1) else p)
  else
    m ++ [(today, 1)]

/-- Outcome of `POST /api/subscribe`: 400 on invalid email, `{exists:true}`
for an already-registered address, `{success:true}` for a new one. -/
inductive SubResult where
  | invalid
  | alreadyRegistered
  | created
  deriving DecidableEq, Repr

/-- `POST /api/subscribe` of `server.js` / `part_000` (file storage).
Note the order of effects in the source: the 400 return happens before
`statsDB.totalClicks++`; the duplicate (`exists:true`) path returns before
`await saveData()`, so on that path only the in-memory state changes. -/
def subscribeServer (st : FullState) (e : String) (today now : Nat) :
    SubResult × FullState :=
  if invalidEmail e then
    (.invalid, st)
  else
    let stats1 := { st.mem.statsDB with totalClicks := st.mem.statsDB.totalClicks + 1 }
    if (st.mem.emailsDB.find? (fun r => r.email == e)).isSome then
      (.alreadyRegistered, { st with mem := { st.mem with statsDB := stats1 } })
    else
      let stats2 := { stats1 with
        emailsByDay := dayIncr stats1.emailsByDay today
        totalEmails := stats1.totalEmails + 1 }
      let mem2 : ServerState :=
        { emailsDB := st.mem.emailsDB ++ [⟨e, now, false⟩], statsDB := stats2 }
      (.created, { mem := mem2, disk := mem2 })

/-- `POST /api/subscribe` of `part_001` in file mode.  Same in-memory
transition as `subscribeServer`, but the duplicate path runs
`await saveStats(stats)` (which rewrites both JSON files) before returning,
and the creation path saves in `createEmail` and again in `saveStats`. -/
def subscribeUnified (st : FullState) (e : String) (today now : Nat) :
    SubResult × FullState :=
  if invalidEmail e then
    (.invalid, st)
  else
    let stats1 := { st.mem.statsDB with totalClicks := st.mem.statsDB.totalClicks + 1 }
    if (st.mem.emailsDB.find? (fun r => r.email == e)).isSome then
      let mem1 := { st.mem with statsDB := stats1 }
      (.alreadyRegistered, { mem := mem1, disk := mem1 })
    else
      let stats2 := { stats1 with
        emailsByDay := dayIncr stats1.emailsByDay today
        totalEmails := stats1.totalEmails + 1 }
      let mem2 : ServerState :=
        { emailsDB := st.mem.emailsDB ++ [⟨e, now, false⟩], statsDB := stats2 }
      (.created, { mem := mem2, disk := mem2 })

/-- A sequence of `POST /api/subscribe` calls against the `server.js`
variant; each call carries `(email, today, now)`. -/
def runSubscribes (st : FullState) (calls : List (String × Nat × Nat)) : FullState :=
  calls.foldl (fun s c => (subscribeServer s c.1 c.2.1 c.2.2).2) st

/-- `DELETE /api/admin/emails/:email` of `server.js` / `part_000`:
`findIndex`, `splice(index, 1)`, then `statsDB.totalEmails--` (no floor). -/
def deleteServer (st : ServerState) (e : String) : Bool × ServerState :=
  match st.emailsDB.findIdx? (fun r => r.email == e) with
  | some i =>
      (true,
        { emailsDB := st.emailsDB.eraseIdx i,
          statsDB := { st.statsDB with totalEmails := st.statsDB.totalEmails - 1 } })
  | none => (false, st)

/-- `DELETE /api/admin/emails/:email` of `part_001`: `deleteEmail` removes the
first matching record, then
`stats.totalEmails = Math.max(0, stats.totalEmails - 1)`. -/
def deleteUnified (st : ServerState) (e : String) : Bool × ServerState :=
  match st.emailsDB.findIdx? (fun r => r.email == e) with
  | some i =>
      (true,
        { emailsDB := st.emailsDB.eraseIdx i,
          statsDB := { st.statsDB with totalEmails := max 0 (st.statsDB.totalEmails - 1) } })
  | none => (false, st)

/-- Helper: one subscribe call bumps `totalClicks` by 1 exactly when the email
passes the validation guard, on both file-storage variants. -/
theorem subscribe_clicks_step (st : FullState) (e : String) (t n : Nat) :
    (subscribeServer st e t n).2.mem.statsDB.totalClicks
      = st.mem.statsDB.totalClicks + (if invalidEmail e then 0 else 1) := by
  by_cases hv : invalidEmail e
  · simp [subscribeServer, hv]
  · by_cases hd : (st.mem.emailsDB.find? (fun r => r.email == e)).isSome
    · simp [subscribeServer, hv, hd]
    · simp [subscribeServer, hv, hd]

/-- Concrete states reused by witnesses and counterexamples below. -/
def emptyStats : Stats := { totalClicks := 0, emailsByDay := [], totalEmails := 0 }

def subA : Subscriber := { email := "a@x.com", subscribedAt := 0, verified := false }

def subB : Subscriber := { email := "b@x.com", subscribedAt := 1, verified := false }

def subC : Subscriber := { email := "c@x.com", subscribedAt := 2, verified := false }

/-- A state whose stats claim `totalEmails = 0` even though one record exists
(e.g. a hand-edited or partially restored `data/stats.json`). -/
def stZero : ServerState := { emailsDB := [subA], statsDB := emptyStats }

/-- A state consistent with one prior registration. -/
def stOne : ServerState :=
  { emailsDB := [subA],
    statsDB := { totalClicks := 1, emailsByDay := [(0, 1)], totalEmails := 1 } }

/-- A consistent in-memory/on-disk pair holding one subscriber. -/
def fsOne : FullState := { mem := stOne, disk := stOne }

/-- An empty server start state. -/
def fsEmpty : FullState :=
  { mem := { emailsDB := [], statsDB := emptyStats },
    disk := { emailsDB := [], statsDB := emptyStats } }

/-- Claim C2 counterexample: in the `server.js` variant, deleting the one
existing subscriber from a state whose stats record `totalEmails = 0` drives
`totalEmails` to `-1`: the deletion is not floored at 0, so `totalEmails`
can become negative, contradicting the claim as stated. -/
theorem c2_delete_counterexample :
    (deleteServer stZero "a@x.com").1 = true ∧
    (deleteServer stZero "a@x.com").2.statsDB.totalEmails = -1 ∧
    (deleteServer stZero "a@x.com").2.statsDB.totalEmails < 0 := by
  decide

/-- Claim C2 (amended): deleting a non-existent address returns 404 and leaves
the state unchanged in both variants.  Deleting an existing address removes
the (first) matching record; in the `part_001` variant the new `totalEmails`
is `max 0 (old - 1)`, hence never negative; in the `server.js` variant it is
`old - 1` with no floor — yet on states where `totalEmails` agrees with the
number of stored records (as maintained by the API itself) the result is
still non-negative. -/
theorem c2_delete_amended :
    (∀ (st : ServerState) (e : String) (i : Nat),
        st.emailsDB.findIdx? (fun r => r.email == e) = some i →
        (deleteUnified st e).1 = true ∧
        (deleteUnified st e).2.emailsDB = st.emailsDB.eraseIdx i ∧
        (deleteUnified st e).2.statsDB.totalEmails
          = max 0 (st.statsDB.totalEmails - 1) ∧
        0 ≤ (deleteUnified st e).2.statsDB.totalEmails) ∧
    (∀ (st : ServerState) (e : String) (i : Nat),
        st.emailsDB.findIdx? (fun r => r.email == e) = some i →
        (deleteServer st e).1 = true ∧
        (deleteServer st e).2.emailsDB = st.emailsDB.eraseIdx i ∧
        (deleteServer st e).2.statsDB.totalEmails = st.statsDB.totalEmails - 1) ∧
    (∀ (st : ServerState) (e : String),
        st.emailsDB.findIdx? (fun r => r.email == e) = none →
        deleteUnified st e = (false, st) ∧ deleteServer st e = (false, st)) ∧
    (∀ (st : ServerState) (e : String) (i : Nat),
        st.emailsDB.findIdx? (fun r => r.email == e) = some i →
        st.statsDB.totalEmails = st.emailsDB.length →
        0 ≤ (deleteServer st e).2.statsDB.totalEmails) := by
  refine ⟨?_, ?_, ?_, ?_⟩
  · intro st e i hf
    refine ⟨?_, ?_, ?_, ?_⟩ <;> simp [deleteUnified, hf]
  · intro st e i hf
    refine ⟨?_, ?_, ?_⟩ <;> simp [deleteServer, hf]
  · intro st e hf
    constructor
    · simp [deleteUnified, hf]
    · simp [deleteServer, hf]
  · intro st e i hf hlen
    have hne : st.emailsDB ≠ [] := by
      intro h
      rw [h] at hf
      simp at hf
    have hpos : 1 ≤ st.emailsDB.length := List.length_pos.mpr hne
    simp [deleteServer, hf, hlen]
    omega

/-- Claim C2 witness: the amended theorem evaluated on concrete states. -/
theorem c2_delete_amended_witness :
    ((deleteUnified stOne "a@x.com").1 = true ∧
      (deleteUnified stOne "a@x.com").2.emailsDB = stOne.emailsDB.eraseIdx 0 ∧
      (deleteUnified stOne "a@x.com").2.statsDB.totalEmails
        = max 0 (stOne.statsDB.totalEmails - 1) ∧
      0 ≤ (deleteUnified stOne "a@x.com").2.statsDB.totalEmails) ∧
    ((deleteServer stOne "a@x.com").1 = true ∧
      (deleteServer stOne "a@x.com").2.emailsDB = stOne.emailsDB.eraseIdx 0 ∧
      (deleteServer stOne "a@x.com").2.statsDB.totalEmails
        = stOne.statsDB.totalEmails - 1) ∧
    (deleteUnified stOne "zz" = (false, stOne) ∧
      deleteServer stOne "zz" = (false, stOne)) ∧
    0 ≤ (deleteServer stOne "a@x.com").2.statsDB.totalEmails := by
  refine ⟨?_, ?_, ?_, ?_⟩
  · exact c2_delete_amended.1 stOne "a@x.com" 0 (by decide)
  · exact c2_delete_amended.2.1 stOne "a@x.com" 0 (by decide)
  · exact c2_delete_amended.2.2.1 stOne "zz" (by decide)
  · exact c2_delete_amended.2.2.2 stOne "a@x.com" 0 (by decide) (by decide)

/-- Claim C3: if the address is already registered (hence it passed the email
guard when it was registered), a second subscribe call returns
`{exists:true}`, pushes no second record, and leaves `totalEmails` and every
day bucket exactly as they were — in both the `server.js` and the `part_001`
variants. -/
theorem c3_duplicate_subscribe (st : FullState) (e : String) (t n : Nat)
    (hv : invalidEmail e = false)
    (hd : (st.mem.emailsDB.find? (fun r => r.email == e)).isSome = true) :
    (subscribeServer st e t n).1 = .alreadyRegistered ∧
    (subscribeServer st e t n).2.mem.emailsDB = st.mem.emailsDB ∧
    (subscribeServer st e t n).2.mem.statsDB.totalEmails
      = st.mem.statsDB.totalEmails ∧
    (subscribeServer st e t n).2.mem.statsDB.emailsByDay
      = st.mem.statsDB.emailsByDay ∧
    (subscribeUnified st e t n).1 = .alreadyRegistered ∧
    (subscribeUnified st e t n).2.mem.emailsDB = st.mem.emailsDB ∧
    (subscribeUnified st e t n).2.mem.statsDB.totalEmails
      = st.mem.statsDB.totalEmails ∧
    (subscribeUnified st e t n).2.mem.statsDB.emailsByDay
      = st.mem.statsDB.emailsByDay := by
  refine ⟨?_, ?_, ?_, ?_, ?_, ?_, ?_, ?_⟩ <;>
    simp [subscribeServer, subscribeUnified, hv, hd]

/-- Claim C3 witness: duplicate subscribe of `a@x.com` against a state that
already holds it. -/
theorem c3_duplicate_subscribe_witness :
    (subscribeServer fsOne "a@x.com" 5 7).1 = .alreadyRegistered ∧
    (subscribeServer fsOne "a@x.com" 5 7).2.mem.emailsDB = fsOne.mem.emailsDB ∧
    (subscribeServer fsOne "a@x.com" 5 7).2.mem.statsDB.totalEmails
      = fsOne.mem.statsDB.totalEmails ∧
    (subscribeServer fsOne "a@x.com" 5 7).2.mem.statsDB.emailsByDay
      = fsOne.mem.statsDB.emailsByDay ∧
    (subscribeUnified fsOne "a@x.com" 5 7).1 = .alreadyRegistered ∧
    (subscribeUnified fsOne "a@x.com" 5 7).2.mem.emailsDB = fsOne.mem.emailsDB ∧
    (subscribeUnified fsOne "a@x.com" 5 7).2.mem.statsDB.totalEmails
      = fsOne.mem.statsDB.totalEmails ∧
    (subscribeUnified fsOne "a@x.com" 5 7).2.mem.statsDB.emailsByDay
      = fsOne.mem.statsDB.emailsByDay :=
  c3_duplicate_subscribe fsOne "a@x.com" 5 7 (by decide) (by decide)

/-- Claim C4 counterexample: a single subscribe call whose email fails the
`includes('@')` guard returns 400 before `statsDB.totalClicks++` runs, so
after a sequence consisting of one subscribe call `totalClicks` is 0, not 1:
`totalClicks` does not count every subscribe call made. -/
theorem c4_clicks_counterexample :
    (runSubscribes fsEmpty [("nodomain", 1, 1)]).mem.statsDB.totalClicks = 0 ∧
    ([("nodomain", 1, 1)] : List (String × Nat × Nat)).length = 1 := by
  decide

/-- Claim C4 (amended): over any sequence of subscribe calls, `totalClicks`
grows by exactly the number of calls that pass the email validation guard
(non-empty email containing the character at-sign); each such call — whether
it registers a new address or reports an existing one — adds exactly 1, and
invalid-email calls add nothing. -/
theorem c4_clicks_amended (st : FullState) (calls : List (String × Nat × Nat)) :
    (runSubscribes st calls).mem.statsDB.totalClicks
      = st.mem.statsDB.totalClicks
        + (calls.filter (fun c => !(invalidEmail c.1))).length := by
  induction calls generalizing st with
  | nil => simp [runSubscribes]
  | cons c cs ih =>
      have hstep := subscribe_clicks_step st c.1 c.2.1 c.2.2
      have htail := ih (subscribeServer st c.1 c.2.1 c.2.2).2
      by_cases hv : invalidEmail c.1
      · simp only [runSubscribes, List.foldl_cons] at htail ⊢
        rw [htail, hstep]
        simp [List.filter_cons, hv]
      · simp only [runSubscribes, List.foldl_cons] at htail ⊢
        rw [htail, hstep]
        simp [List.filter_cons, hv]
        omega

/-- Claim C4 witness: a duplicate call, a fresh call and an invalid call:
clicks grow by 2. -/
theorem c4_clicks_amended_witness :
    (runSubscribes fsOne [("a@x.com", 3, 3), ("bad", 4, 4), ("b@x.com", 5, 5)]).mem.statsDB.totalClicks
      = fsOne.mem.statsDB.totalClicks
        + (([("a@x.com", 3, 3), ("bad", 4, 4), ("b@x.com", 5, 5)] : List (String × Nat × Nat)).filter
            (fun c => !(invalidEmail c.1))).length :=
  c4_clicks_amended fsOne [("a@x.com", 3, 3), ("bad", 4, 4), ("b@x.com", 5, 5)]

/-- The per-recipient send loop of `POST /api/admin/send-broadcast`: for each
record, `try { await send...; successCount++ } catch { failedEmails.push }`.
`fails` abstracts whether the provider send throws for a given address.  The
function is total: the per-recipient `catch` means no exception escapes. -/
def broadcastLoop (fails : String → Bool) (subs : List Subscriber) : Nat × List String :=
  subs.foldl
    (fun acc r => if fails r.email then (acc.1, acc.2 ++ [r.email]) else (acc.1 + 1, acc.2))
    (0, [])

/-- Helper: filtering on the negated predicate counts the complement. -/
theorem length_filter_not {α : Type} (p : α → Bool) (l : List α) :
    (l.filter (fun x => !(p x))).length = l.length - (l.filter p).length := by
  induction l with
  | nil => simp
  | cons a l ih =>
      have hle := List.length_filter_le p l
      cases ha : p a <;> simp [List.filter_cons, ha, ih] <;> omega

/-- Helper: the broadcast fold, with explicit accumulator. -/
theorem broadcastLoop_go (fails : String → Bool) (subs : List Subscriber) :
    ∀ (c : Nat) (f : List String),
      subs.foldl
        (fun acc r => if fails r.email then (acc.1, acc.2 ++ [r.email]) else (acc.1 + 1, acc.2))
        (c, f)
      = (c + (subs.filter (fun r => !(fails r.email))).length,
         f ++ (subs.filter (fun r => fails r.email)).map (fun r => r.email)) := by
  induction subs with
  | nil => intro c f; simp
  | cons r rest ih =>
      intro c f
      cases hf : fails r.email
      · simp only [List.foldl_cons, hf]
        rw [if_neg (by simp [hf])]
        rw [ih (c + 1) f]
        simp [List.filter_cons, hf]
        omega
      · simp only [List.foldl_cons, hf]
        rw [if_pos (by simp [hf])]
        rw [ih c (f ++ [r.email])]
        simp [List.filter_cons, hf]

/-- Claim C1: over a snapshot of `N` subscribers on which the provider send
fails for exactly `K`, the loop reports `successCount = N - K` and a
`failedEmails` list of length `K` holding exactly the failing addresses (in
snapshot order); the loop is a total function, so no exception escapes, and a
failure never aborts the remaining sends. -/
theorem c1_broadcast_partial_failure (fails : String → Bool) (subs : List Subscriber)
    (K : Nat) (h : (subs.filter (fun r => fails r.email)).length = K) :
    (broadcastLoop fails subs).1 = subs.length - K ∧
    (broadcastLoop fails subs).2.length = K ∧
    (broadcastLoop fails subs).2
      = (subs.filter (fun r => fails r.email)).map (fun r => r.email) := by
  unfold broadcastLoop
  rw [broadcastLoop_go fails subs 0 []]
  subst h
  refine ⟨?_, ?_, ?_⟩
  · simp [length_filter_not]
  · simp
  · simp

/-- Three registered subscribers, used by concrete witnesses. -/
def subs3 : List Subscriber := [subA, subB, subC]

/-- Claim C1 witness: three subscribers, the provider failing exactly for
`b@x.com`: 2 successes, 1 recorded failure. -/
theorem c1_broadcast_partial_failure_witness :
    (broadcastLoop (fun e => e == "b@x.com") subs3).1 = subs3.length - 1 ∧
    (broadcastLoop (fun e => e == "b@x.com") subs3).2.length = 1 ∧
    (broadcastLoop (fun e => e == "b@x.com") subs3).2
      = (subs3.filter (fun r => r.email == "b@x.com")).map (fun r => r.email) :=
  c1_broadcast_partial_failure (fun e => e == "b@x.com") subs3 1 (by decide)

/-- The `.sort({ subscribedAt: -1 })` comparison of the MongoDB branch of
`getAllEmails` in `part_001`: descending by subscription time. -/
def recentFirst (a b : Subscriber) : Prop :=
  b.subscribedAt ≤ a.subscribedAt

instance : DecidableRel recentFirst :=
  fun a b => inferInstanceAs (Decidable (b.subscribedAt ≤ a.subscribedAt))

instance : IsTotal Subscriber recentFirst :=
  ⟨fun a b => Nat.le_total b.subscribedAt a.subscribedAt⟩

instance : IsTrans Subscriber recentFirst :=
  ⟨fun a b c h1 h2 => Nat.le_trans h2 h1⟩

/-- `getAllEmails` of `part_001`, JSON-file branch: `[...emailsDB].reverse()`. -/
def getAllEmailsFile (db : List Subscriber) : List Subscriber :=
  db.reverse

/-- `getAllEmails` of `part_001`, MongoDB branch:
`Email.find().sort({ subscribedAt: -1 })`, modelled as a stable sort by the
descending comparison. -/
def getAllEmailsMongo (db : List Subscriber) : List Subscriber :=
  List.insertionSort recentFirst db

/-- `GET /api/admin/emails` of `server.js` and `part_000`:
`res.json({ emails: emailsDB })` — the raw array, no reversal, no sort. -/
def adminEmailsLegacy (db : List Subscriber) : List Subscriber :=
  db

/-- Helper: ordered insertion of an element that compares after everything
in the list appends it at the end. -/
theorem orderedInsert_eq_append {α : Type} (r : α → α → Prop) [DecidableRel r] (a : α) :
    ∀ (l : List α), (∀ b ∈ l, ¬ r a b) → l.orderedInsert r a = l ++ [a] := by
  intro l
  induction l with
  | nil => intro _; rfl
  | cons b l ih =>
      intro h
      rw [List.orderedInsert, if_neg (h b (List.mem_cons_self b l))]
      rw [ih (fun x hx => h x (List.mem_cons_of_mem b hx))]
      rfl

/-- Helper: on a database whose `subscribedAt` values strictly increase in
insertion order (as produced by appending at subscribe time), the MongoDB
sort agrees with reversing the array. -/
theorem getAllEmailsMongo_eq_reverse (db : List Subscriber)
    (h : List.Pairwise (fun a b => a.subscribedAt < b.subscribedAt) db) :
    getAllEmailsMongo db = getAllEmailsFile db := by
  unfold getAllEmailsMongo getAllEmailsFile
  induction db with
  | nil => rfl
  | cons s l ih =>
      rw [List.insertionSort, ih (List.Pairwise.of_cons h)]
      rw [orderedInsert_eq_append recentFirst s l.reverse ?_]
      · rw [List.reverse_cons]
      · intro b hb
        have hs : s.subscribedAt < b.subscribedAt :=
          (List.pairwise_cons.mp h).1 b (List.mem_reverse.mp hb)
        unfold recentFirst
        omega

/-- Claim C5 counterexample: in `server.js` / `part_000` the admin emails
endpoint returns `emailsDB` itself — insertion order, oldest first.  With two
subscribers where `subA` subscribed before `subB`, the returned sequence
starts with the older record and is not ordered most-recent-first. -/
theorem c5_listing_counterexample :
    adminEmailsLegacy [subA, subB] = [subA, subB] ∧
    subA.subscribedAt < subB.subscribedAt ∧
    (adminEmailsLegacy [subA, subB]).head? = some subA ∧
    ¬ List.Sorted recentFirst (adminEmailsLegacy [subA, subB]) := by
  refine ⟨rfl, by decide, rfl, ?_⟩
  intro hs
  have := (List.pairwise_cons.mp hs).1 subB (by simp)
  simp [recentFirst, subA, subB] at this

/-- Claim C5 (amended): in the dual-storage variant (`part_001`) the listing
comes from `getAllEmails()`: the document-database branch always returns a
sequence sorted by `subscribedAt` descending, the file branch returns
insertion order reversed, and the two agree (most recently subscribed first)
whenever `subscribedAt` strictly increases along insertion order.  In the
single-storage variants (`server.js`, `part_000`) the admin emails endpoint
instead returns the raw array in insertion order, oldest first. -/
theorem c5_listing_amended :
    (∀ db : List Subscriber, List.Sorted recentFirst (getAllEmailsMongo db)) ∧
    (∀ db : List Subscriber,
        List.Pairwise (fun a b => a.subscribedAt < b.subscribedAt) db →
        getAllEmailsMongo db = getAllEmailsFile db) ∧
    (∀ db : List Subscriber,
        List.Pairwise (fun a b => a.subscribedAt < b.subscribedAt) db →
        List.Sorted recentFirst (getAllEmailsFile db)) ∧
    (∀ db : List Subscriber, adminEmailsLegacy db = db) := by
  refine ⟨?_, ?_, ?_, fun db => rfl⟩
  · intro db
    exact List.sorted_insertionSort recentFirst db
  · intro db h
    exact getAllEmailsMongo_eq_reverse db h
  · intro db h
    unfold getAllEmailsFile
    exact List.pairwise_reverse.mpr (h.imp (fun hab => Nat.le_of_lt hab))

/-- Claim C5 witness: both backends return `[subB, subA]` — most recent
first — for the increasing-timestamp database `[subA, subB]`. -/
theorem c5_listing_amended_witness :
    List.Sorted recentFirst (getAllEmailsMongo [subA, subB]) ∧
    getAllEmailsMongo [subA, subB] = getAllEmailsFile [subA, subB] ∧
    List.Sorted recentFirst (getAllEmailsFile [subA, subB]) ∧
    adminEmailsLegacy [subA, subB] = [subA, subB] := by
  refine ⟨?_, ?_, ?_, ?_⟩
  · exact c5_listing_amended.1 [subA, subB]
  · exact c5_listing_amended.2.1 [subA, subB] (by decide)
  · exact c5_listing_amended.2.2.1 [subA, subB] (by decide)
  · exact c5_listing_amended.2.2.2 [subA, subB]

/-- The chart comparator of `GET /api/admin/stats`:
`.sort((a, b) => new Date(a.date) - new Date(b.date))` — ascending by
calendar date (dates modelled as naturals, order-isomorphic to the parsed
`Date` values). -/
def dateAsc (a b : Nat × Nat) : Prop :=
  a.1 ≤ b.1

instance : DecidableRel dateAsc :=
  fun a b => inferInstanceAs (Decidable (a.1 ≤ b.1))

instance : IsTotal (Nat × Nat) dateAsc :=
  ⟨fun a b => Nat.le_total a.1 b.1⟩

instance : IsTrans (Nat × Nat) dateAsc :=
  ⟨fun a b c h1 h2 => Nat.le_trans h1 h2⟩

/-- `chartData` of `GET /api/admin/stats`: `Object.entries(emailsByDay)`
(the insertion-ordered entry list), mapped to `{date, count}` pairs and
sorted ascending by date. -/
def chartData (m : List (Nat × Nat)) : List (Nat × Nat) :=
  List.insertionSort dateAsc m

/-- Claim C7: for every day-bucket map — whatever the insertion order of its
entries — the produced `chartData` is sorted ascending by calendar date, and
it is a permutation of the entries (no bucket is dropped or invented). -/
theorem c7_chartdata_sorted (m : List (Nat × Nat)) :
    List.Sorted dateAsc (chartData m) ∧ (chartData m).Perm m :=
  ⟨List.sorted_insertionSort dateAsc m, List.perm_insertionSort dateAsc m⟩

/-- Claim C8 counterexample: in `server.js`, a duplicate-address subscribe
against a consistent state increments `totalClicks` in memory and returns
before `saveData()`, so afterwards the persisted state differs from the
in-memory state. -/
theorem c8_persistence_counterexample :
    (subscribeServer fsOne "a@x.com" 1 1).1 = .alreadyRegistered ∧
    (subscribeServer fsOne "a@x.com" 1 1).2.mem.statsDB.totalClicks = 2 ∧
    (subscribeServer fsOne "a@x.com" 1 1).2.disk.statsDB.totalClicks = 1 ∧
    (subscribeServer fsOne "a@x.com" 1 1).2.disk
      ≠ (subscribeServer fsOne "a@x.com" 1 1).2.mem := by
  decide

/-- Claim C8 (amended): in the dual-backend variant (`part_001`) every
subscribe path — duplicate included — persists before returning, so a
consistent disk/memory pair stays consistent.  In `server.js` / `part_000`
the new-registration path persists (`disk = mem` afterwards), but the
duplicate path increments `totalClicks` in memory and leaves the persisted
state untouched, so persistence lags until the next save. -/
theorem c8_persistence_amended :
    (∀ (st : FullState) (e : String) (t n : Nat),
        st.disk = st.mem →
        (subscribeUnified st e t n).2.disk = (subscribeUnified st e t n).2.mem) ∧
    (∀ (st : FullState) (e : String) (t n : Nat),
        invalidEmail e = false →
        (st.mem.emailsDB.find? (fun r => r.email == e)).isSome = true →
        (subscribeServer st e t n).2.mem.statsDB.totalClicks
          = st.mem.statsDB.totalClicks + 1 ∧
        (subscribeServer st e t n).2.disk = st.disk) ∧
    (∀ (st : FullState) (e : String) (t n : Nat),
        invalidEmail e = false →
        (st.mem.emailsDB.find? (fun r => r.email == e)).isSome = false →
        (subscribeServer st e t n).2.disk = (subscribeServer st e t n).2.mem) := by
  refine ⟨?_, ?_, ?_⟩
  · intro st e t n hcons
    by_cases hv : invalidEmail e
    · simp [subscribeUnified, hv, hcons]
    · by_cases hd : (st.mem.emailsDB.find? (fun r => r.email == e)).isSome
      · simp [subscribeUnified, hv, hd]
      · simp [subscribeUnified, hv, hd]
  · intro st e t n hv hd
    constructor
    · simp [subscribeServer, hv, hd]
    · simp [subscribeServer, hv, hd]
  · intro st e t n hv hd
    simp [subscribeServer, hv, hd]

/-- Claim C8 witness: the amended statement evaluated on a concrete
consistent one-subscriber state, for a duplicate and a fresh address. -/
theorem c8_persistence_amended_witness :
    ((subscribeUnified fsOne "a@x.com" 2 2).2.disk
        = (subscribeUnified fsOne "a@x.com" 2 2).2.mem) ∧
    ((subscribeServer fsOne "a@x.com" 2 2).2.mem.statsDB.totalClicks
        = fsOne.mem.statsDB.totalClicks + 1 ∧
      (subscribeServer fsOne "a@x.com" 2 2).2.disk = fsOne.disk) ∧
    ((subscribeServer fsOne "b@x.com" 2 2).2.disk
        = (subscribeServer fsOne "b@x.com" 2 2).2.mem) := by
  refine ⟨?_, ?_, ?_⟩
  · exact c8_persistence_amended.1 fsOne "a@x.com" 2 2 (by decide)
  · exact c8_persistence_amended.2.1 fsOne "a@x.com" 2 2 (by decide) (by decide)
  · exact c8_persistence_amended.2.2 fsOne "b@x.com" 2 2 (by decide) (by decide)

/-- JS `s.startsWith(p)`, modelled over the character lists. -/
def jsStartsWith (s p : String) : Bool :=
  p.data.isPrefixOf s.data

/-- Helper for JS `s.split(' ')`: cut at every space character. -/
def splitSpaceAux : List Char → List Char → List (List Char)
  | [], cur => [cur.reverse]
  | c :: cs, cur =>
      if c == ' ' then cur.reverse :: splitSpaceAux cs []
      else splitSpaceAux cs (c :: cur)

/-- JS `s.split(' ')`. -/
def jsSplitSpace (s : String) : List String :=
  (splitSpaceAux s.data []).map (fun l => String.mk l)

/-- The `adminAuth` middleware, identical in every variant:
`const authHeader = req.headers['authorization'] || ''`, reject unless it
starts with `'Bearer '`; then `token = authHeader.split(' ')[1]`, reject if
the token is falsy or does not start with `'admin-token-'`. -/
def adminAuth (authHeader : Option String) : Bool :=
  let h := authHeader.getD ""
  if !(jsStartsWith h "Bearer ") then false
  else
    let token := (jsSplitSpace h).getD 1 ""
    if token == "" || !(jsStartsWith token "admin-token-") then false
    else true

/-- A protected admin operation: run the guard, return the payload only when
it passes (`next()`), and `401` with no data (`none`) otherwise. -/
def adminGate {α : Type} (authHeader : Option String) (payload : α) : Option α :=
  if adminAuth authHeader then some payload else none

/-- Claim C9: a protected operation yields no data when the Authorization
header is absent, when it does not carry a `Bearer` value, or when the
bearer token lacks the fixed `admin-token-` prefix; it proceeds (returns its
payload) exactly when the header starts with `'Bearer '` and the token at
split position 1 has the recognized prefix. -/
theorem c9_admin_auth :
    (∀ (α : Type) (p : α), adminGate (none : Option String) p = none) ∧
    (∀ (α : Type) (p : α) (h : String),
        jsStartsWith h "Bearer " = false → adminGate (some h) p = none) ∧
    (∀ (α : Type) (p : α) (h : String),
        jsStartsWith ((jsSplitSpace h).getD 1 "") "admin-token-" = false →
        adminGate (some h) p = none) ∧
    (∀ (α : Type) (p : α) (h : String),
        jsStartsWith h "Bearer " = true →
        jsStartsWith ((jsSplitSpace h).getD 1 "") "admin-token-" = true →
        adminGate (some h) p = some p) := by
  refine ⟨?_, ?_, ?_, ?_⟩
  · intro α p
    simp [adminGate, adminAuth, jsStartsWith]
  · intro α p h hb
    simp [adminGate, adminAuth, hb]
  · intro α p h ht
    by_cases hb : jsStartsWith h "Bearer "
    · have ht' : jsStartsWith ((jsSplitSpace h)[1]?.getD "") "admin-token-" = false := by
        simpa [List.getD_eq_getElem?_getD] using ht
      simp [adminGate, adminAuth, hb, ht']
    · simp [adminGate, adminAuth, hb]
  · intro α p h hb ht
    have htok : ((jsSplitSpace h).getD 1 "") ≠ "" := by
      intro he
      rw [he] at ht
      exact absurd ht (by decide)
    have ht' : jsStartsWith ((jsSplitSpace h)[1]?.getD "") "admin-token-" = true := by
      simpa [List.getD_eq_getElem?_getD] using ht
    have htok' : ((jsSplitSpace h)[1]?.getD "") ≠ "" := by
      simpa [List.getD_eq_getElem?_getD] using htok
    simp [adminGate, adminAuth, hb, ht', htok']

/-- Claim C9 witness: the four cases on concrete headers — absent, a
non-bearer header, a bearer with a foreign token, and a well-formed admin
token. -/
theorem c9_admin_auth_witness :
    adminGate (none : Option String) (0 : Nat) = none ∧
    adminGate (some "Token admin-token-5") (0 : Nat) = none ∧
    adminGate (some "Bearer foo") (0 : Nat) = none ∧
    adminGate (some "Bearer admin-token-abc") (0 : Nat) = some 0 := by
  refine ⟨?_, ?_, ?_, ?_⟩
  · exact c9_admin_auth.1 Nat 0
  · exact c9_admin_auth.2.1 Nat 0 "Token admin-token-5" (by decide)
  · exact c9_admin_auth.2.2.1 Nat 0 "Bearer foo" (by decide)
  · exact c9_admin_auth.2.2.2 Nat 0 "Bearer admin-token-abc" (by decide) (by decide)

/-- Outcome of `POST /api/admin/login`. -/
inductive LoginResult where
  | ok (token : String)
  | unauthorized
  deriving DecidableEq, Repr

/-- `POST /api/admin/login`:
`if (email === CONFIG.ADMIN_EMAIL && password === CONFIG.ADMIN_PASSWORD)`
issue `'admin-token-' + Date.now()`, else 401.  Missing request fields and
unset environment variables are both JS `undefined`, modelled as `none`;
`===` on these values is exactly equality of the `Option String`s. -/
def adminLogin (bodyEmail bodyPassword cfgEmail cfgPassword : Option String)
    (now : Nat) : LoginResult :=
  if bodyEmail == cfgEmail && bodyPassword == cfgPassword then
    .ok ("admin-token-" ++ toString now)
  else
    .unauthorized

/-- Claim C10: login succeeds exactly when the submitted email and password
strictly equal the configured ones, missing values compared as `undefined`;
in particular, with both admin credentials unset a request omitting both
fields is issued a token, and that token passes the admin guard. -/
theorem c10_login_strict_equality :
    adminLogin none none none none 0 = .ok "admin-token-0" ∧
    (∀ (e p ae ap : Option String) (n : Nat),
        adminLogin e p ae ap n = .ok ("admin-token-" ++ toString n)
          ↔ (e = ae ∧ p = ap)) ∧
    adminGate (some "Bearer admin-token-0") (0 : Nat) = some 0 := by
  refine ⟨by decide, ?_, by decide⟩
  intro e p ae ap n
  constructor
  · intro h
    by_cases hc : (e == ae && p == ap) = true
    · rw [Bool.and_eq_true, beq_iff_eq, beq_iff_eq] at hc
      exact hc
    · rw [adminLogin, if_neg hc] at h
      exact absurd h (by simp)
  · intro hc
    obtain ⟨h1, h2⟩ := hc
    subst h1
    subst h2
    simp [adminLogin]

/-- Claim C10 witness: matching concrete credentials log in; the defining
equivalence applied at a concrete input. -/
theorem c10_login_strict_equality_witness :
    adminLogin (some "ad@x.com") (some "pw") (some "ad@x.com") (some "pw") 3
      = .ok ("admin-token-" ++ toString 3) :=
  (c10_login_strict_equality.2.1 (some "ad@x.com") (some "pw")
    (some "ad@x.com") (some "pw") 3).mpr ⟨rfl, rfl⟩

/-- An uploaded image file as multer delivers it (`file.path`,
`file.originalname`). -/
structure UploadedImage where
  path : String
  originalname : String
  deriving DecidableEq, Repr

/-- One inline image tag of the Gmail branch:
`<img src="cid:image${index}" style="..." alt="Imagen ${index + 1}">`. -/
def imgTag (i : Nat) : String :=
  "<img src=\"cid:image" ++ toString i ++
    "\" style=\"max-width: 100%; height: auto; margin: 10px 0;\" alt=\"Imagen " ++
    toString (i + 1) ++ "\">"

/-- The attachment-only notice:
`<p style="..."><em>📎 Este email incluye ${images.length} imagen(es) adjunta(s)</em></p>`. -/
def imagesNote (n : Nat) : String :=
  "<p style=\"color: #666; font-size: 14px; margin-top: 20px;\"><em>📎 Este email incluye " ++
    toString n ++ " imagen(es) adjunta(s)</em></p>"

/-- The `imagesHTML` accumulation of `POST /api/admin/send-broadcast`
(`server.js` / `part_001`): under Gmail, one `<img src="cid:imageN">` per
uploaded image; under any other provider with at least one image, the
textual notice (`part_000`, Resend-only, uses the same notice string). -/
def imagesHTML (provider : String) (images : List UploadedImage) : String :=
  if provider == "Gmail" then
    String.join (images.enum.map (fun p => imgTag p.1))
  else if 0 < images.length then
    imagesNote images.length
  else
    ""

/-- One element of the `attachments` array:
`{ path: file.path, filename: file.originalname, cid: image${index} }`. -/
structure Attachment where
  path : String
  filename : String
  cid : String
  deriving DecidableEq, Repr

/-- `images.map((file, index) => ({path, filename, cid: image${index}}))`. -/
def mkAttachments (images : List UploadedImage) : List Attachment :=
  images.enum.map (fun p =>
    { path := p.2.path, filename := p.2.originalname,
      cid := "image" ++ toString p.1 })

/-- The broadcast HTML template up to the `${subject}` interpolation. -/
def htmlHeader : String :=
  "<div style=\"font-family: Arial, sans-serif; max-width: 600px; margin: 0 auto; padding: 20px;\"><div style=\"background: linear-gradient(135deg, #d4a574 0%, #c89b68 100%); padding: 30px; text-align: center; border-radius: 10px 10px 0 0;\"><h1 style=\"color: white; margin: 0;\">"

/-- The template between `${subject}` and `${message}`. -/
def htmlMid : String :=
  "</h1></div><div style=\"background: #f9f9f9; padding: 30px; border-radius: 0 0 10px 10px;\"><p style=\"color: #333; line-height: 1.6; white-space: pre-wrap;\">"

/-- The template between `${message}` and `${imagesHTML}`. -/
def htmlAfterMessage : String :=
  "</p>"

/-- The template after `${imagesHTML}`, including the
`Enviado con ${emailProvider}` footer of `server.js` / `part_001`. -/
def htmlFooter (provider : String) : String :=
  "</div><div style=\"text-align: center; margin-top: 20px; color: #999; font-size: 12px;\"><p>Recibiste este email porque te suscribiste a nuestras notificaciones.</p><p style=\"font-size: 10px; margin-top: 10px;\">Enviado con " ++
    provider ++ "</p></div></div>"

/-- The rendered broadcast HTML (`htmlContent` in the source), built once and
shared by all recipients. -/
def htmlContent (provider subject message : String)
    (images : List UploadedImage) : String :=
  htmlHeader ++ (subject ++ (htmlMid ++ (message ++ (htmlAfterMessage ++
    (imagesHTML provider images ++ htmlFooter provider)))))

/-- Does a character list begin with the four characters of an `<img` tag? -/
def startsImg (l : List Char) : Bool :=
  match l with
  | c1 :: c2 :: c3 :: c4 :: _ => c1 == '<' && c2 == 'i' && c3 == 'm' && c4 == 'g'
  | _ => false

/-- Number of occurrences of `<img` in a character list. -/
def countImgAux : List Char → Nat
  | [] => 0
  | c :: cs => (if startsImg (c :: cs) then 1 else 0) + countImgAux cs

/-- Number of `<img` tag openings in a string. -/
def countImg (s : String) : Nat :=
  countImgAux s.data

/-- Substring search on character lists. -/
def hasSub (pat : List Char) : List Char → Bool
  | [] => pat.isEmpty
  | c :: cs => pat.isPrefixOf (c :: cs) || hasSub pat cs

/-- Substring containment on strings. -/
def containsSub (pat s : String) : Bool :=
  hasSub pat.data s.data

/-- Helper: a list not starting with the escape character starts no tag. -/
theorem startsImg_of_ne (c : Char) (cs : List Char) (hc : c ≠ '<') :
    startsImg (c :: cs) = false := by
  match cs with
  | [] => rfl
  | [c2] => rfl
  | [c2, c3] => rfl
  | c2 :: c3 :: c4 :: rest => simp [startsImg, hc]

/-- Helper: `startsImg` only inspects the first four characters. -/
theorem startsImg_append_of_le (l1 l2 : List Char) (h : 4 ≤ l1.length) :
    startsImg (l1 ++ l2) = startsImg l1 := by
  match l1, h with
  | c1 :: c2 :: c3 :: c4 :: rest, _ => rfl

/-- Helper: a chunk without the escape character contributes no tags. -/
theorem countImgAux_append_left (l1 l2 : List Char) (h : '<' ∉ l1) :
    countImgAux (l1 ++ l2) = countImgAux l2 := by
  induction l1 with
  | nil => rfl
  | cons c cs ih =>
      have hc : c ≠ '<' := fun hh => h (hh ▸ List.mem_cons_self c cs)
      have hcs : '<' ∉ cs := fun hm => h (List.mem_cons_of_mem c hm)
      rw [List.cons_append, countImgAux, startsImg_of_ne c (cs ++ l2) hc, ih hcs]
      simp

/-- Helper: tag counting distributes over an append whose left part ends in
three tag-free characters (so no occurrence straddles the boundary). -/
theorem countImgAux_append (l0 l3 l2 : List Char) (h3 : l3.length = 3)
    (hlt : '<' ∉ l3) :
    countImgAux ((l0 ++ l3) ++ l2) = countImgAux (l0 ++ l3) + countImgAux l2 := by
  induction l0 with
  | nil =>
      simp only [List.nil_append]
      rw [countImgAux_append_left l3 l2 hlt]
      have h0 : countImgAux l3 = 0 := by
        have h00 := countImgAux_append_left l3 [] hlt
        rw [List.append_nil] at h00
        exact h00
      rw [h0, Nat.zero_add]
  | cons c l0' ih =>
      have hshape : ((c :: l0') ++ l3) ++ l2 = c :: ((l0' ++ l3) ++ l2) := by
        simp
      have hshape2 : (c :: l0') ++ l3 = c :: (l0' ++ l3) := by
        simp
      rw [hshape, hshape2, countImgAux, countImgAux]
      have hsi : startsImg (c :: ((l0' ++ l3) ++ l2)) = startsImg (c :: (l0' ++ l3)) := by
        have hlen : 4 ≤ (c :: (l0' ++ l3)).length := by
          simp [h3]
        have h := startsImg_append_of_le (c :: (l0' ++ l3)) l2 hlen
        rw [List.cons_append] at h
        exact h
      rw [hsi, ih, Nat.add_assoc]

/-- Helper: tag counting distributes whenever the last three characters of
the left chunk are tag-free. -/
theorem countImgAux_split (l1 l2 : List Char) (h3 : 3 ≤ l1.length)
    (hlast : '<' ∉ l1.drop (l1.length - 3)) :
    countImgAux (l1 ++ l2) = countImgAux l1 + countImgAux l2 := by
  have hlen : (l1.drop (l1.length - 3)).length = 3 := by
    rw [List.length_drop]
    omega
  have h := countImgAux_append (l1.take (l1.length - 3)) (l1.drop (l1.length - 3))
    l2 hlen hlast
  rw [List.take_append_drop] at h
  exact h

/-- Helper: substring containment survives prepending any chunk. -/
theorem hasSub_append_right (pat l1 l2 : List Char) (h : hasSub pat l2 = true) :
    hasSub pat (l1 ++ l2) = true := by
  induction l1 with
  | nil => simpa
  | cons c cs ih =>
      rw [List.cons_append, hasSub, ih]
      simp

/-- Helper: with exactly two images, the Gmail branch renders the two
positional tags. -/
theorem imagesHTML_gmail_two (a b : UploadedImage) :
    imagesHTML "Gmail" [a, b] = imgTag 0 ++ imgTag 1 := rfl

/-- Helper: with exactly two images, any non-Gmail provider renders the
notice. -/
theorem imagesHTML_resend_two (a b : UploadedImage) :
    imagesHTML "Resend" [a, b] = imagesNote 2 := rfl

/-- Two concrete uploads for counterexample and witness. -/
def imgP : UploadedImage := { path := "uploads/1-p.png", originalname := "p.png" }

def imgQ : UploadedImage := { path := "uploads/2-q.png", originalname := "q.png" }

/-- Claim C6 counterexample: the message text is interpolated into the HTML
unescaped, so a broadcast with 2 images whose message itself contains an
`<img` tag renders 3 `<img>` tags under the inline-capable provider — not
exactly 2 as the claim states for every broadcast. -/
theorem c6_images_counterexample :
    countImg (htmlContent "Gmail" "Oferta" "<img src=x>" [imgP, imgQ]) = 3 ∧
    ¬ countImg (htmlContent "Gmail" "Oferta" "<img src=x>" [imgP, imgQ]) = 2 := by
  constructor
  · decide
  · decide

/-- Claim C6 (amended): for every broadcast with 2 uploaded images whose
subject and message are plain text (no `<` character, hence no injected
tags), the Gmail-rendered HTML contains exactly 2 `<img>` openings,
referencing the distinct positional content-ids `image0` and `image1` (the
same ids carried by the attachment list), while the attachment-only
(Resend) rendering contains 0 `<img>` openings and instead the textual
notice stating the number of attached images. -/
theorem c6_images_amended (subject message : String) (images : List UploadedImage)
    (hs : '<' ∉ subject.data) (hm : '<' ∉ message.data)
    (h2 : images.length = 2) :
    countImg (htmlContent "Gmail" subject message images) = 2 ∧
    containsSub "cid:image0" (htmlContent "Gmail" subject message images) = true ∧
    containsSub "cid:image1" (htmlContent "Gmail" subject message images) = true ∧
    (mkAttachments images).map (fun att => att.cid) = ["image0", "image1"] ∧
    countImg (htmlContent "Resend" subject message images) = 0 ∧
    containsSub "Este email incluye 2 imagen(es) adjunta(s)"
      (htmlContent "Resend" subject message images) = true := by
  obtain ⟨a, b, rfl⟩ := List.length_eq_two.mp h2
  refine ⟨?_, ?_, ?_, ?_, ?_, ?_⟩
  · show countImg (htmlContent "Gmail" subject message [a, b]) = 2
    unfold countImg htmlContent
    rw [imagesHTML_gmail_two a b]
    simp only [String.data_append]
    rw [countImgAux_split htmlHeader.data _ (by decide) (by decide)]
    rw [countImgAux_append_left subject.data _ hs]
    rw [countImgAux_split htmlMid.data _ (by decide) (by decide)]
    rw [countImgAux_append_left message.data _ hm]
    decide
  · show containsSub "cid:image0" (htmlContent "Gmail" subject message [a, b]) = true
    unfold containsSub htmlContent
    rw [imagesHTML_gmail_two a b]
    simp only [String.data_append]
    apply hasSub_append_right
    apply hasSub_append_right
    apply hasSub_append_right
    apply hasSub_append_right
    decide
  · show containsSub "cid:image1" (htmlContent "Gmail" subject message [a, b]) = true
    unfold containsSub htmlContent
    rw [imagesHTML_gmail_two a b]
    simp only [String.data_append]
    apply hasSub_append_right
    apply hasSub_append_right
    apply hasSub_append_right
    apply hasSub_append_right
    decide
  · simp only [mkAttachments, List.enum, List.enumFrom, List.map]
    decide
  · show countImg (htmlContent "Resend" subject message [a, b]) = 0
    unfold countImg htmlContent
    rw [imagesHTML_resend_two a b]
    simp only [String.data_append]
    rw [countImgAux_split htmlHeader.data _ (by decide) (by decide)]
    rw [countImgAux_append_left subject.data _ hs]
    rw [countImgAux_split htmlMid.data _ (by decide) (by decide)]
    rw [countImgAux_append_left message.data _ hm]
    decide
  · show containsSub "Este email incluye 2 imagen(es) adjunta(s)"
      (htmlContent "Resend" subject message [a, b]) = true
    unfold containsSub htmlContent
    rw [imagesHTML_resend_two a b]
    simp only [String.data_append]
    apply hasSub_append_right
    apply hasSub_append_right
    apply hasSub_append_right
    apply hasSub_append_right
    decide

/-- Claim C6 witness: the amended statement on a concrete plain-text
broadcast with two concrete uploads. -/
theorem c6_images_amended_witness :
    countImg (htmlContent "Gmail" "Novedades" "Hola a todos" [imgP, imgQ]) = 2 ∧
    containsSub "cid:image0" (htmlContent "Gmail" "Novedades" "Hola a todos" [imgP, imgQ]) = true ∧
    containsSub "cid:image1" (htmlContent "Gmail" "Novedades" "Hola a todos" [imgP, imgQ]) = true ∧
    (mkAttachments [imgP, imgQ]).map (fun att => att.cid) = ["image0", "image1"] ∧
    countImg (htmlContent "Resend" "Novedades" "Hola a todos" [imgP, imgQ]) = 0 ∧
    containsSub "Este email incluye 2 imagen(es) adjunta(s)"
      (htmlContent "Resend" "Novedades" "Hola a todos" [imgP, imgQ]) = true :=
  c6_images_amended "Novedades" "Hola a todos" [imgP, imgQ]
    (by decide) (by decide) (by decide)

end Newsletter
